import Mathlib

/-!
Verification development for the send_to_server_FFT repository.

The program (an Arduino/ESP32 sketch, source file code_FFt.ino) samples
audio, runs an FFT, scans a target frequency band for a magnitude peak,
and delivers detections to an HTTP collector, falling back to an
append-only SPIFFS log (the Local Queue) when the collector is
unreachable.

This file shallowly embeds the pieces of the sketch that the claims are
about.  Machine integers are modelled as Nat/Int (all values involved
stay far below the 32-bit bounds of the device, except where noted);
doubles are modelled as Rat; the SPIFFS log file is modelled as the list
of its newline-terminated lines (every write performed by the program
ends in a newline, so the file content is always the concatenation of
line ++ newline for each stored line); HTTP traffic is an environment
oracle supplying the response code of each request.
-/

/- ===== Configuration constants (source lines 14-48) ===== -/

def SAMPLES : Nat := 2048
def SAMPLING_FREQ : Nat := 44100
def TARGET_FREQ_MIN : Nat := 17700
def TARGET_FREQ_MAX : Nat := 18300
def MAGNITUDE_THRESHOLD : Int := 1000

/-- Source line 31-36: the backendUrls array literal contains a single
entry; the other three candidate URLs are commented out in the source. -/
def backendUrls : List String := ["http://192.168.8.109:3000/api/detections"]

/-- Source line 37: declared endpoint count, independent of the actual
array literal length. -/
def numBackendUrls : Nat := 4

def connectionTimeout : Nat := 5000
def serverCheckInterval : Nat := 30000
def maxStoredDetections : Nat := 100

/- ===== Numeric helpers for the C double-to-int conversions ===== -/

/-- C cast (int)x: truncation toward zero. -/
def cTruncInt (x : Rat) : Int := if 0 ≤ x then ⌊x⌋ else ⌈x⌉

/-- Rounding half up, as performed by the dtostrf-based Arduino
String(double, decimals) constructor when formatting (the fractional
part 0.5 rounds away from zero for the nonnegative values this program
formats). -/
def roundHalfUp (x : Rat) : Int := ⌊x + 1 / 2⌋

/- ===== Arduino String formatting (used at source lines 269-271, 407-409) ===== -/

/-- Arduino String(value, 0): the double rendered with zero decimal
places, i.e. the decimal digits of the rounded value. Only applied by
the program to nonnegative values. -/
def fmtRat0 (x : Rat) : String := toString (roundHalfUp x)

/-- Arduino String(value): the double rendered with the default two
decimal places. Only applied by the program to nonnegative values. -/
def fmtRat2 (x : Rat) : String :=
  let c : Int := roundHalfUp (x * 100)
  let ip : Int := c / 100
  let fp : Nat := (c % 100).toNat
  toString ip ++ "." ++ (if fp < 10 then "0" else "") ++ toString fp

/- ===== Arduino String parsing (used at source lines 348-357) ===== -/

/-- Arduino String.indexOf(ch, start): index of the first occurrence of
ch at or after position start, or -1 when absent. -/
def indexOfFrom (cs : List Char) (c : Char) (start : Nat) : Int :=
  match (cs.drop start).findIdx? (fun d => d = c) with
  | some i => (start : Int) + i
  | none => -1

/-- Arduino String.substring(a, b): the characters of positions a
(inclusive) to b (exclusive). -/
def substringChars (cs : List Char) (a b : Nat) : List Char :=
  (cs.take b).drop a

def digitsVal (ds : List Char) : Nat :=
  ds.foldl (fun a c => a * 10 + (c.toNat - 48)) 0

def takeDigits (cs : List Char) : List Char × List Char :=
  (cs.takeWhile Char.isDigit, cs.dropWhile Char.isDigit)

/-- Arduino String.toDouble, i.e. C strtod restricted to the inputs this
program produces: optional leading spaces and sign, integer digits,
optional fraction digits (its lines never carry exponents); returns 0
when no digits parse, as strtod does. -/
def arduinoToDouble (s : String) : Rat :=
  let cs := s.toList.dropWhile (fun c => c = ' ')
  let signAndRest : Bool × List Char :=
    match cs with
    | '-' :: rest => (true, rest)
    | '+' :: rest => (false, rest)
    | _ => (false, cs)
  let ipRest := takeDigits signAndRest.2
  let fp : List Char :=
    match ipRest.2 with
    | '.' :: rest => (takeDigits rest).1
    | _ => []
  let mag : Rat := (digitsVal ipRest.1 : Rat) + (digitsVal fp : Rat) / ((10 : Rat) ^ fp.length)
  if signAndRest.1 then -mag else mag

/- ===== System state and environment ===== -/

/-- The global mutable state of the sketch that the claims mention:
reachability state (source lines 38-42), storage state (lines 45-48) and
the SPIFFS log file itself. fileLines = none models a file that does not
exist (SPIFFS.open in read mode fails); some ls models an existing file
whose newline-terminated lines are ls. -/
structure SysState where
  serverAvailable : Bool
  lastServerCheckTime : Nat
  currentUrlIndex : Nat
  spiffsAvailable : Bool
  storedDetections : Nat
  fileLines : Option (List String)
deriving DecidableEq

/-- The environment oracle for one call into the delivery code: link
state, the millis() clock, and the HTTP response code of each request
the program may issue. drainPost k and drainNow k are the POST response
code and the millis() value at the k-th send attempted while draining
the stored-data file. -/
structure Env where
  wifiConnected : Bool
  now : Nat
  probe : Nat → Int
  postCode : Int
  drainPost : Nat → Int
  drainNow : Nat → Nat

/- ===== millis() arithmetic ===== -/

/-- Unsigned 32-bit subtraction, as performed on the ESP32 where
unsigned long is 32 bits: currentTime - lastServerCheckTime at source
line 202. -/
def usub32 (a b : Nat) : Nat := (a % 2 ^ 32 + (2 ^ 32 - b % 2 ^ 32)) % 2 ^ 32

/- ===== checkServerAvailability (source lines 199-239) ===== -/

/-- The endpoint loop of checkServerAvailability (source lines 210-236):
indices are tried in order 0, 1, ...; each visited index i reads
backendUrls[i] (source line 212, an out-of-bounds read whenever
i is not below the array literal length) and issues a GET whose response
code is probe i; the loop stops at the first positive code. Returns the
index of the first success (if any) and the list of visited indices. -/
def probeLoop (probe : Nat → Int) : Nat → Nat → Option Nat × List Nat
  | _, 0 => (none, [])
  | i, r + 1 =>
    if 0 < probe i then (some i, [i])
    else
      let rest := probeLoop probe (i + 1) r
      (rest.1, i :: rest.2)

structure CheckOut where
  available : Bool
  state : SysState
  accessed : List Nat
deriving DecidableEq

/-- checkServerAvailability (source lines 199-239). accessed is the list
of endpoint indices visited by the probe loop; it is empty exactly when
no reachability request is issued. -/
def checkServerAvailability (now : Nat) (probe : Nat → Int) (st : SysState) : CheckOut :=
  if st.serverAvailable = true ∧ usub32 now st.lastServerCheckTime < serverCheckInterval then
    ⟨st.serverAvailable, st, []⟩
  else
    let st1 : SysState := { st with lastServerCheckTime := now, serverAvailable := false }
    let r := probeLoop probe 0 numBackendUrls
    match r.1 with
    | some i => ⟨true, { st1 with serverAvailable := true, currentUrlIndex := i }, r.2⟩
    | none => ⟨false, st1, r.2⟩

/- ===== Local Queue: store / trim (source lines 241-326) ===== -/

/-- countLinesInFile (source lines 241-254): counts the nonempty lines
of the file. -/
def countLinesInFile (lines : List String) : Nat :=
  (lines.filter (fun l => 0 < l.length)).length

/-- The CSV line built at source lines 269-271:
String(frequency, 0) + "," + String(magnitude) + "," + String(millis()).
The source appends a final newline to this string; that newline is the
line terminator under the line-list file model and so is not part of the
line itself. -/
def dataLine (frequency magnitude : Rat) (now : Nat) : String :=
  fmtRat0 frequency ++ "," ++ fmtRat2 magnitude ++ "," ++ toString now

/-- trimDataFile (source lines 288-326): skips the oldest
storedDetections - maxStoredDetections lines, rewrites the file with the
remaining lines, and sets the count to maxStoredDetections. (The
subtraction is on nonnegative C ints; when the count is below the
maximum the skip loop runs zero times, which Nat subtraction models
exactly.) -/
def trimDataFile (st : SysState) : SysState :=
  if st.spiffsAvailable = false then st
  else
    match st.fileLines with
    | none => st
    | some lines =>
      let linesToSkip := st.storedDetections - maxStoredDetections
      { st with fileLines := some (lines.drop linesToSkip),
                storedDetections := maxStoredDetections }

/-- storeDetectionLocally (source lines 256-286). The data line built at
lines 269-271 already ends in a newline, and println (line 273) appends
a carriage return and another newline after it, so each append adds TWO
lines to the file: the CSV line and a line consisting of the single
carriage-return character. Opening in append mode creates the file when
it is absent. After a successful write the count is incremented and, when
it exceeds maxStoredDetections, the file is trimmed. -/
def storeDetectionLocally (now : Nat) (frequency magnitude : Rat) (st : SysState) : SysState :=
  if st.spiffsAvailable = false then st
  else
    let st1 : SysState :=
      { st with fileLines := some ((st.fileLines.getD []) ++ [dataLine frequency magnitude now, "\r"]),
                storedDetections := st.storedDetections + 1 }
    if maxStoredDetections < st1.storedDetections then trimDataFile st1 else st1

/- ===== Sending (source lines 328-476) ===== -/

/-- The JSON payload built at source lines 407-409 and 439-441; the
three fields are the formatted strings spliced into the JSON template
(the constant punctuation of the template is omitted here). -/
structure Payload where
  frequency : String
  magnitude : String
  timestamp : String
deriving DecidableEq

def mkPayload (frequency magnitude : Rat) (now : Nat) : Payload :=
  ⟨fmtRat0 frequency, fmtRat2 magnitude, toString now⟩

/-- sendSingleDetection (source lines 396-416): no request when the
server is not marked available; otherwise POSTs the payload (timestamp
taken from millis() at send time, source line 409) and succeeds exactly
when the response code is positive. Returns the success flag and the
payload of the POST when one was issued. -/
def sendSingleDetection (st : SysState) (post : Int) (now : Nat) (frequency magnitude : Rat) :
    Bool × Option Payload :=
  if st.serverAvailable = false then (false, none)
  else (decide (0 < post), some (mkPayload frequency magnitude now))

/-- The line filter of the drain loop (source lines 346-351): the line
is nonempty and its first comma sits at a positive index and a second
comma follows it. (A positive first-comma index already forces the line
to be nonempty, so the length check of line 346 adds nothing.) -/
def lineParseable (line : String) : Bool :=
  let cs := line.toList
  let firstComma := indexOfFrom cs ',' 0
  let secondComma := indexOfFrom cs ',' (firstComma + 1).toNat
  decide (0 < firstComma) && decide (0 < secondComma)

/-- The field extraction of source lines 352-357: frequency and
magnitude parsed from the first two comma-separated fields. (timeStr,
the third field, is extracted by the source at line 354 but never
used.) -/
def parseFields (line : String) : Rat × Rat :=
  let cs := line.toList
  let firstComma := (indexOfFrom cs ',' 0).toNat
  let secondComma := (indexOfFrom cs ',' (firstComma + 1)).toNat
  (arduinoToDouble ⟨substringChars cs 0 firstComma⟩,
   arduinoToDouble ⟨substringChars cs (firstComma + 1) secondComma⟩)

structure DrainOut where
  successCount : Nat
  failCount : Nat
  sent : List Payload
  remaining : List String
deriving DecidableEq

/-- The while loop of sendStoredData (source lines 344-375). k numbers
the send attempts (indexing the drainPost/drainNow oracles), succ and
fail mirror successCount and failCount. A failed send increments
failCount and the loop breaks as soon as failCount exceeds 3 (line 365),
returning the lines not yet processed; failCount is never reset by a
success. sent collects the payloads of the successful POSTs. -/
def drainLoop (st : SysState) (env : Env) :
    Nat → Nat → Nat → List Payload → List String → DrainOut
  | _, succ, fail, sent, [] => ⟨succ, fail, sent, []⟩
  | k, succ, fail, sent, line :: rest =>
    if lineParseable line then
      let fm := parseFields line
      let r := sendSingleDetection st (env.drainPost k) (env.drainNow k) fm.1 fm.2
      if r.1 then drainLoop st env (k + 1) (succ + 1) fail (sent ++ r.2.toList) rest
      else if 3 < fail + 1 then ⟨succ, fail + 1, sent, rest⟩
      else drainLoop st env (k + 1) succ (fail + 1) sent rest
    else drainLoop st env k succ fail sent rest

structure SendStoredOut where
  ok : Bool
  state : SysState
  sent : List Payload
deriving DecidableEq

/-- sendStoredData (source lines 328-394): requires reachability and
storage, opens the data file (failing when it does not exist), drains
it, and removes the file and zeroes the count exactly when at least one
send succeeded and none failed; in every other case the file and the
count are left untouched. -/
def sendStoredData (env : Env) (st : SysState) : SendStoredOut :=
  if st.serverAvailable = false ∨ st.spiffsAvailable = false then ⟨false, st, []⟩
  else
    match st.fileLines with
    | none => ⟨false, st, []⟩
    | some lines =>
      let d := drainLoop st env 0 0 0 [] lines
      if 0 < d.successCount ∧ d.failCount = 0 then
        ⟨true, { st with fileLines := none, storedDetections := 0 }, d.sent⟩
      else ⟨false, st, d.sent⟩

structure DeliverOut where
  state : SysState
  postAttempted : Bool
  postPayload : Option Payload
deriving DecidableEq

/-- sendDetectionToBackend (source lines 418-476), the deliver
operation. postAttempted records whether the detection POST of line 443
was issued (the reachability probes of checkServerAvailability are
accounted separately, in CheckOut.accessed). On a successful POST with a
nonempty queue the stored data is drained; on a failed POST the
detection is stored locally and the reachability state invalidated. -/
def sendDetectionToBackend (env : Env) (frequency magnitude : Rat) (st : SysState) : DeliverOut :=
  if env.wifiConnected = false then
    ⟨storeDetectionLocally env.now frequency magnitude st, false, none⟩
  else
    let c := checkServerAvailability env.now env.probe st
    if c.available = false then
      ⟨storeDetectionLocally env.now frequency magnitude c.state, false, none⟩
    else
      let payload := mkPayload frequency magnitude env.now
      if 0 < env.postCode then
        let st2 := if 0 < c.state.storedDetections then (sendStoredData env c.state).state
                   else c.state
        ⟨st2, true, some payload⟩
      else
        let st2 := storeDetectionLocally env.now frequency magnitude c.state
        ⟨{ st2 with serverAvailable := false }, true, some payload⟩

/- ===== Target-band analysis (source lines 478-513) ===== -/

/-- Source line 479: round((TARGET_FREQ_MIN * SAMPLES) / SAMPLING_FREQ).
All three macros are int literals, so the division is C integer
division (truncation; all values positive), and round is applied to an
already-integral value. -/
def minBin : Nat := TARGET_FREQ_MIN * SAMPLES / SAMPLING_FREQ

/-- Source line 480: round((TARGET_FREQ_MAX * SAMPLES) / SAMPLING_FREQ),
again C integer division followed by a vacuous round. -/
def maxBin : Nat := TARGET_FREQ_MAX * SAMPLES / SAMPLING_FREQ

/-- The peak scan of source lines 488-494: walks bins minBin..maxBin
inclusive over the magnitude array vReal, keeping the first strictly
largest magnitude and its frequency (i * SAMPLING_FREQ) / (double)SAMPLES,
starting from maxMagnitude = 0, peakFreq = 0. -/
def peakScan (vReal : Nat → Rat) : Rat × Rat :=
  (List.range' minBin (maxBin - minBin + 1)).foldl
    (fun acc i => if acc.1 < vReal i then (vReal i, (i * SAMPLING_FREQ : Rat) / SAMPLES) else acc)
    (0, 0)

/-- The observable outcome of one analyzeTargetRange call: whether the
band guard passed, whether the serial peak report of lines 501-505 was
produced, and the (peakFreq, scaledMagnitude) argument pair of the
sendDetectionToBackend call when one was made. -/
structure AnalyzeResult where
  bandValid : Bool
  logged : Bool
  delivered : Option (Rat × Int)
deriving DecidableEq

/-- Source line 497: int scaledMagnitude = (int)(maxMagnitude * 5000),
a C cast, i.e. truncation toward zero. -/
def scaledMagnitudeOf (maxMagnitude : Rat) : Int := cTruncInt (maxMagnitude * 5000)

/-- analyzeTargetRange (source lines 478-513). The guard of line 482
aborts when maxBin reaches SAMPLES/2. Gate 1 (line 500) compares the int
cast of maxMagnitude * 1000 against MAGNITUDE_THRESHOLD and controls the
serial report; gate 2 (line 508) requires scaledMagnitude at least 20000
and controls the sendDetectionToBackend call. -/
def analyzeTargetRange (vReal : Nat → Rat) : AnalyzeResult :=
  if SAMPLES / 2 ≤ maxBin then ⟨false, false, none⟩
  else
    if MAGNITUDE_THRESHOLD ≤ cTruncInt ((peakScan vReal).1 * 1000) then
      ⟨true, true,
        if 20000 ≤ scaledMagnitudeOf (peakScan vReal).1 then
          some ((peakScan vReal).2, scaledMagnitudeOf (peakScan vReal).1)
        else none⟩
    else ⟨true, false, none⟩

/- ===== Derived measures of a drain (used to state the drain claims) ===== -/

/-- The number of lines of the file that the drain loop would attempt to
send (the lines passing the comma filter of source lines 346-351). -/
def parseables (lines : List String) : Nat := (lines.filter lineParseable).length

/-- The number of failures a full drain of the given lines would meet if
every parseable line were attempted: the k-th attempted line fails
exactly when post k is nonpositive. -/
def fullFailCount (post : Nat → Int) : Nat → List String → Nat
  | _, [] => 0
  | k, line :: rest =>
    if lineParseable line then
      (if 0 < post k then 0 else 1) + fullFailCount post (k + 1) rest
    else fullFailCount post k rest

def failRunsAux : List Bool → Nat → Nat → Nat
  | [], cur, mx => max cur mx
  | b :: rest, cur, mx => if b then failRunsAux rest 0 (max cur mx) else failRunsAux rest (cur + 1) mx

/-- The longest run of consecutive failures among the outcomes of the
first n send attempts (attempt k succeeds exactly when post k is
positive). -/
def maxFailRun (post : Nat → Int) (n : Nat) : Nat :=
  failRunsAux ((List.range n).map (fun k => decide (0 < post k))) 0 0

/- ===== Concrete fixtures used by the concrete theorems ===== -/

/-- A fresh state right after boot with storage mounted and the server
marked available (as after a successful probe): no stored detections. -/
def stC1 : SysState := ⟨true, 0, 0, true, 0, none⟩

/-- Environment for the drain of the C1 scenario: every request succeeds
and millis() reads 2000 at the drained send. -/
def envC1 : Env := ⟨true, 2000, fun _ => 200, 201, fun _ => 201, fun _ => 2000⟩

/-- State for the C2 scenario: server marked unavailable, storage
mounted, empty log file. -/
def stC2 : SysState := ⟨false, 0, 0, true, 0, some []⟩

/-- Environment for the C2 counterexample: link present, the fresh probe
succeeds at endpoint 0, and the detection POST returns 201. -/
def envC2 : Env := ⟨true, 1000, fun _ => 200, 201, fun _ => 1, fun _ => 1000⟩

/-- Environment for the amended C2 scenario: link present but every
reachability probe fails. -/
def envC2b : Env := ⟨true, 777, fun _ => -1, -1, fun _ => -1, fun _ => 0⟩

/-- The log file produced by appending 105 detections (frequency 18000,
magnitude 22500, timestamps 0..104) to an empty file: each append writes
the CSV line and a carriage-return line. -/
def lines105 : List String := (List.range 105).flatMap (fun t => [dataLine 18000 22500 t, "\r"])

/-- The queue state of the C3 scenario: 105 stored detections. -/
def stC3 : SysState := ⟨false, 0, 0, true, 105, some lines105⟩

/-- The lines the C3 claim expects after the trim: exactly the entries
with timestamps 5..104, i.e. the 100 most recently appended ones. -/
def linesC3Expected : List String := (List.range' 5 100).flatMap (fun t => [dataLine 18000 22500 t, "\r"])

/-- State for the C5 scenario: server not marked available, so a call to
checkServerAvailability runs the probe loop. -/
def stC5 : SysState := ⟨false, 0, 0, false, 0, none⟩

/-- A queue of ten appended detections (timestamps 0..9). -/
def lines10 : List String := (List.range 10).flatMap (fun t => [dataLine 18000 22500 t, "\r"])

/-- State for the drain scenarios: server available, storage mounted,
ten stored detections. -/
def stD : SysState := ⟨true, 0, 0, true, 10, some lines10⟩

/-- Environment for the C6 counterexample: the k-th drained send fails
for even k and succeeds for odd k, so failures never come two in a
row. -/
def envD : Env := ⟨true, 0, fun _ => -1, -1, fun k => if k % 2 = 0 then -1 else 1, fun _ => 0⟩

/-- Environment in which every request succeeds. -/
def envOK : Env := ⟨true, 0, fun _ => 200, 201, fun _ => 201, fun _ => 0⟩

/-- A one-entry queue state used by the drain witnesses. -/
def stE : SysState := ⟨true, 0, 0, true, 1, some [dataLine 18000 22500 0, "\r"]⟩

/- ===== Shared lemmas ===== -/

/-- When every configured endpoint fails to respond, the probe loop
visits all four loop indices and finds no server. -/
theorem probeLoop_allFail (probe : Nat → Int)
    (h : ∀ i, i < numBackendUrls → probe i ≤ 0) :
    probeLoop probe 0 numBackendUrls = (none, [0, 1, 2, 3]) := by
  have n0 : ¬(0 < probe 0) := by have := h 0 (by norm_num [numBackendUrls]); omega
  have n1 : ¬(0 < probe 1) := by have := h 1 (by norm_num [numBackendUrls]); omega
  have n2 : ¬(0 < probe 2) := by have := h 2 (by norm_num [numBackendUrls]); omega
  have n3 : ¬(0 < probe 3) := by have := h 3 (by norm_num [numBackendUrls]); omega
  show probeLoop probe 0 4 = (none, [0, 1, 2, 3])
  simp [probeLoop, n0, n1, n2, n3]

/- ===== C10 ===== -/

/-- C10: a probe made while the last probe succeeded (serverAvailable is
true) and less than the check interval has elapsed returns the cached
serverAvailable value with the state untouched and no reachability
request issued (empty accessed list). -/
theorem C10_cached_probe (st : SysState) (now : Nat) (probe : Nat → Int)
    (h1 : st.serverAvailable = true)
    (h2 : usub32 now st.lastServerCheckTime < serverCheckInterval) :
    checkServerAvailability now probe st = ⟨true, st, []⟩ := by
  unfold checkServerAvailability
  rw [if_pos ⟨h1, h2⟩, h1]

/-- Witness for C10 at a concrete state and clock. -/
theorem C10_cached_probe_witness :
    (⟨true, 500, 0, false, 0, none⟩ : SysState).serverAvailable = true ∧
    usub32 1000 (⟨true, 500, 0, false, 0, none⟩ : SysState).lastServerCheckTime < serverCheckInterval ∧
    checkServerAvailability 1000 (fun _ => -1) ⟨true, 500, 0, false, 0, none⟩ =
      ⟨true, ⟨true, 500, 0, false, 0, none⟩, []⟩ :=
  ⟨rfl, by decide, C10_cached_probe ⟨true, 500, 0, false, 0, none⟩ 1000 (fun _ => -1) rfl (by decide)⟩

/- ===== C5 ===== -/

/-- C5: evaluation of the probe loop when endpoint index 0 does not
respond. The loop visits indices 0, 1, 2 and 3 (each visit reads
backendUrls[i], source line 212), but the backendUrls array literal has
a single element, so the visited indices are NOT all within the bounds
of the configured endpoint array: the claimed safety property fails on
the code. -/
theorem C5_probe_reads_out_of_bounds :
    (checkServerAvailability 0 (fun _ => -1) stC5).accessed = [0, 1, 2, 3] ∧
    backendUrls.length = 1 ∧
    ¬(∀ i ∈ (checkServerAvailability 0 (fun _ => -1) stC5).accessed, i < backendUrls.length) := by
  refine ⟨by with_unfolding_all rfl, rfl, fun hcontra => ?_⟩
  have h1 : (1 : Nat) ∈ (checkServerAvailability 0 (fun _ => -1) stC5).accessed := by
    with_unfolding_all decide
  have := hcontra 1 h1
  simp [backendUrls] at this

/- ===== C4 ===== -/

/-- C4 counterexample: the code computes maxBin = 849, not the 848 the
claim states, and not round(targetFreqMax * windowSize / sampleRate) =
850 either (the source divides before rounding, with C integer
division). -/
theorem C4_maxBin_counterexample :
    maxBin = 849 ∧ (849 : Nat) ≠ 848 ∧
    round (((TARGET_FREQ_MAX : Rat) * (SAMPLES : Rat)) / (SAMPLING_FREQ : Rat)) = 850 := by
  refine ⟨by norm_num [maxBin, TARGET_FREQ_MAX, SAMPLES, SAMPLING_FREQ], by norm_num, ?_⟩
  norm_num [TARGET_FREQ_MAX, SAMPLES, SAMPLING_FREQ, round_eq]

/-- C4 amended: the detector computes minBin and maxBin by integer
division (truncation) of targetFreq * windowSize by sampleRate; for the
configured constants that gives minBin = 821 and maxBin = 849, both
below windowSize/2 = 1024, so the band guard accepts every window. -/
theorem C4_bins_amended :
    minBin = TARGET_FREQ_MIN * SAMPLES / SAMPLING_FREQ ∧
    maxBin = TARGET_FREQ_MAX * SAMPLES / SAMPLING_FREQ ∧
    minBin = 821 ∧ maxBin = 849 ∧ maxBin < SAMPLES / 2 ∧
    ∀ v : Nat → Rat, (analyzeTargetRange v).bandValid = true := by
  refine ⟨rfl, rfl, by norm_num [minBin, TARGET_FREQ_MIN, SAMPLES, SAMPLING_FREQ],
    by norm_num [maxBin, TARGET_FREQ_MAX, SAMPLES, SAMPLING_FREQ],
    by norm_num [maxBin, SAMPLES, TARGET_FREQ_MAX, SAMPLING_FREQ], fun v => ?_⟩
  unfold analyzeTargetRange
  rw [if_neg (by norm_num [maxBin, SAMPLES, TARGET_FREQ_MAX, SAMPLING_FREQ])]
  split <;> rfl

/- ===== C9 ===== -/

/-- C9 counterexample: the scaled magnitude is a C int cast (truncation),
not a rounding: at maxMagnitude = 3/25000 the code computes 0 while
round(maxMagnitude * 5000) = 1. -/
theorem C9_scale_counterexample :
    scaledMagnitudeOf (3 / 25000 : Rat) = 0 ∧
    round ((3 / 25000 : Rat) * 5000) = 1 := by
  constructor
  · with_unfolding_all rfl
  · norm_num [round_eq]

set_option maxRecDepth 8000 in
/-- C9 amended: the scaled magnitude is the truncation toward zero of
maxMagnitude * 5000 (the floor, for the nonnegative magnitudes the FFT
produces), not its rounding; the Scenario B instance still holds: a
window with peak magnitude 4.5 scales to 22500, which reaches the 20000
gate, so analyzeTargetRange emits the detection (deliver is invoked with
the peak frequency and 22500). -/
theorem C9_scaled_magnitude_amended (m : Rat) (h : 0 ≤ m) :
    scaledMagnitudeOf m = ⌊m * 5000⌋ ∧
    scaledMagnitudeOf (9 / 2 : Rat) = 22500 ∧
    analyzeTargetRange (fun _ => (9 : Rat) / 2) =
      ⟨true, true, some ((821 * 44100 : Rat) / 2048, 22500)⟩ := by
  refine ⟨?_, by with_unfolding_all rfl, by with_unfolding_all rfl⟩
  have h5 : (0 : Rat) ≤ m * 5000 := mul_nonneg h (by norm_num)
  simp [scaledMagnitudeOf, cTruncInt, h5]

/-- Witness for C9 at maxMagnitude = 9/2. -/
theorem C9_scaled_magnitude_witness :
    (0 : Rat) ≤ 9 / 2 ∧
    (scaledMagnitudeOf (9 / 2 : Rat) = ⌊(9 / 2 : Rat) * 5000⌋ ∧
     scaledMagnitudeOf (9 / 2 : Rat) = 22500 ∧
     analyzeTargetRange (fun _ => (9 : Rat) / 2) =
       ⟨true, true, some ((821 * 44100 : Rat) / 2048, 22500)⟩) :=
  ⟨by norm_num, C9_scaled_magnitude_amended (9 / 2) (by norm_num)⟩

/- ===== C8 ===== -/

/-- C8: whenever the peak magnitude of a window passes gate 1 (the int
cast of maxMagnitude * 1000 reaches MAGNITUDE_THRESHOLD) but its scaled
magnitude stays below the 20000 gate, analyzeTargetRange logs the event
and does not invoke sendDetectionToBackend. -/
theorem C8_between_gates_logged_not_delivered (v : Nat → Rat)
    (h1 : MAGNITUDE_THRESHOLD ≤ cTruncInt ((peakScan v).1 * 1000))
    (h2 : scaledMagnitudeOf (peakScan v).1 < 20000) :
    (analyzeTargetRange v).logged = true ∧ (analyzeTargetRange v).delivered = none := by
  unfold analyzeTargetRange
  rw [if_neg (by norm_num [maxBin, SAMPLES, TARGET_FREQ_MAX, SAMPLING_FREQ]), if_pos h1,
    if_neg (not_le.mpr h2)]
  exact ⟨rfl, rfl⟩

set_option maxRecDepth 8000 in
/-- Witness for C8: a window of constant magnitude 2 passes gate 1
(2000 at the gate-1 scale) but scales to 10000 < 20000, so it is logged
and not delivered. -/
theorem C8_between_gates_witness :
    MAGNITUDE_THRESHOLD ≤ cTruncInt ((peakScan (fun _ => (2 : Rat))).1 * 1000) ∧
    scaledMagnitudeOf (peakScan (fun _ => (2 : Rat))).1 < 20000 ∧
    ((analyzeTargetRange (fun _ => (2 : Rat))).logged = true ∧
     (analyzeTargetRange (fun _ => (2 : Rat))).delivered = none) :=
  ⟨by with_unfolding_all decide, by with_unfolding_all decide,
   C8_between_gates_logged_not_delivered (fun _ => (2 : Rat))
     (by with_unfolding_all decide) (by with_unfolding_all decide)⟩

/- ===== Drain-loop lemmas (shared by the drain claims) ===== -/

/-- With the server marked available, one queued send succeeds exactly
when its POST response code is positive. -/
theorem sendSingle_avail {st : SysState} (hA : st.serverAvailable = true)
    (post : Int) (now : Nat) (f m : Rat) :
    sendSingleDetection st post now f m = (decide (0 < post), some (mkPayload f m now)) := by
  simp [sendSingleDetection, hA]

/-- The failure counter never decreases through the drain loop. -/
theorem drainLoop_fail_le (st : SysState) (env : Env) :
    ∀ (lines : List String) (k succ fail : Nat) (sent : List Payload),
      fail ≤ (drainLoop st env k succ fail sent lines).failCount := by
  intro lines
  induction lines with
  | nil => intro k succ fail sent; simp [drainLoop]
  | cons line rest ih =>
    intro k succ fail sent
    simp only [drainLoop]
    split
    · split
      · exact ih _ _ _ _
      · split
        · exact Nat.le_succ _
        · exact le_trans (Nat.le_succ _) (ih _ _ _ _)
    · exact ih _ _ _ _

/-- With the server marked available, the success flag of one queued
send is the positivity test of its POST response code. -/
theorem sendSingle_avail_fst {st : SysState} (hA : st.serverAvailable = true)
    (post : Int) (now : Nat) (f m : Rat) :
    (sendSingleDetection st post now f m).1 = decide (0 < post) := by
  simp [sendSingleDetection, hA]

/-- When the failures still to come fit under the break bound, the drain
loop consumes every line. -/
theorem drainLoop_complete (st : SysState) (env : Env) (hA : st.serverAvailable = true) :
    ∀ (lines : List String) (k succ fail : Nat) (sent : List Payload),
      fail + fullFailCount env.drainPost k lines ≤ 3 →
      (drainLoop st env k succ fail sent lines).remaining = [] := by
  intro lines
  induction lines with
  | nil => intro k succ fail sent _; simp [drainLoop]
  | cons line rest ih =>
    intro k succ fail sent h
    by_cases hp : lineParseable line = true
    · rw [show fullFailCount env.drainPost k (line :: rest) =
          (if 0 < env.drainPost k then 0 else 1) + fullFailCount env.drainPost (k + 1) rest from
          by simp [fullFailCount, hp]] at h
      simp only [drainLoop, sendSingle_avail_fst hA, if_pos hp]
      by_cases hpost : 0 < env.drainPost k
      · rw [if_pos hpost] at h
        rw [if_pos (decide_eq_true hpost)]
        apply ih
        omega
      · rw [if_neg hpost] at h
        rw [if_neg (by simp [hpost]), if_neg (by omega : ¬ 3 < fail + 1)]
        apply ih
        omega
    · simp only [drainLoop, if_neg hp]
      apply ih
      rwa [show fullFailCount env.drainPost k (line :: rest) =
          fullFailCount env.drainPost k rest from by simp [fullFailCount, hp]] at h

/-- When the drain loop leaves lines unprocessed, it broke because the
failure counter reached exactly 4. -/
theorem drainLoop_stop4 (st : SysState) (env : Env) (hA : st.serverAvailable = true) :
    ∀ (lines : List String) (k succ fail : Nat) (sent : List Payload),
      fail ≤ 3 →
      (drainLoop st env k succ fail sent lines).remaining ≠ [] →
      (drainLoop st env k succ fail sent lines).failCount = 4 := by
  intro lines
  induction lines with
  | nil => intro k succ fail sent _ hne; simp [drainLoop] at hne
  | cons line rest ih =>
    intro k succ fail sent hf hne
    by_cases hp : lineParseable line = true
    · simp only [drainLoop, sendSingle_avail_fst hA, if_pos hp] at hne ⊢
      by_cases hpost : 0 < env.drainPost k
      · rw [if_pos (decide_eq_true hpost)] at hne ⊢
        exact ih _ _ _ _ hf hne
      · rw [if_neg (by simp [hpost])] at hne ⊢
        by_cases hbreak : 3 < fail + 1
        · rw [if_pos hbreak] at hne ⊢
          show fail + 1 = 4
          omega
        · rw [if_neg hbreak] at hne ⊢
          exact ih _ _ _ _ (by omega) hne
    · simp only [drainLoop, if_neg hp] at hne ⊢
      exact ih _ _ _ _ hf hne

/-- When every POST succeeds, the drain loop attempts every parseable
line, counts them all as successes and meets no failure. -/
theorem drainLoop_allSuccess (st : SysState) (env : Env) (hA : st.serverAvailable = true)
    (hp : ∀ j, 0 < env.drainPost j) :
    ∀ (lines : List String) (k succ fail : Nat) (sent : List Payload),
      (drainLoop st env k succ fail sent lines).successCount = succ + parseables lines ∧
      (drainLoop st env k succ fail sent lines).failCount = fail ∧
      (drainLoop st env k succ fail sent lines).remaining = [] := by
  intro lines
  induction lines with
  | nil => intro k succ fail sent; simp [drainLoop, parseables]
  | cons line rest ih =>
    intro k succ fail sent
    by_cases hpl : lineParseable line = true
    · simp only [drainLoop, sendSingle_avail_fst hA, if_pos hpl,
        if_pos (decide_eq_true (hp k))]
      refine ⟨?_, (ih _ _ _ _).2.1, (ih _ _ _ _).2.2⟩
      rw [(ih _ _ _ _).1]
      have : parseables (line :: rest) = parseables rest + 1 := by
        simp [parseables, hpl, List.filter]
      omega
    · simp only [drainLoop, if_neg hpl]
      have : parseables (line :: rest) = parseables rest := by
        simp [parseables, List.filter, hpl]
      rw [this]
      exact ih _ _ _ _

/-- When some parseable line within reach of the loop has a failing POST,
the drain ends with a positive failure count (the first failing line is
always attempted). -/
theorem drainLoop_failure_hits (st : SysState) (env : Env) (hA : st.serverAvailable = true) :
    ∀ (lines : List String) (k succ fail : Nat) (sent : List Payload),
      (∃ j, j < parseables lines ∧ env.drainPost (k + j) ≤ 0) →
      0 < (drainLoop st env k succ fail sent lines).failCount := by
  intro lines
  induction lines with
  | nil => intro k succ fail sent h; simp [parseables] at h
  | cons line rest ih =>
    intro k succ fail sent h
    by_cases hpl : lineParseable line = true
    · simp only [drainLoop, sendSingle_avail_fst hA, if_pos hpl]
      by_cases hpost : 0 < env.drainPost k
      · rw [if_pos (decide_eq_true hpost)]
        obtain ⟨j, hj, hfailj⟩ := h
        have hcnt : parseables (line :: rest) = parseables rest + 1 := by
          simp [parseables, hpl, List.filter]
        match j, hfailj with
        | 0, hfailj => exact absurd hpost (by simpa using hfailj)
        | j' + 1, hfailj =>
          exact ih _ _ _ _ ⟨j', by omega, by rwa [show k + 1 + j' = k + (j' + 1) from by omega]⟩
      · rw [if_neg (by simp [hpost])]
        by_cases hbreak : 3 < fail + 1
        · rw [if_pos hbreak]
          show 0 < fail + 1
          omega
        · rw [if_neg hbreak]
          have := drainLoop_fail_le st env rest (k + 1) succ (fail + 1) sent
          omega
    · simp only [drainLoop, if_neg hpl]
      have hcnt : parseables (line :: rest) = parseables rest := by
        simp [parseables, List.filter, hpl]
      exact ih _ _ _ _ (by rwa [hcnt] at h)

/- ===== C6 ===== -/

set_option maxRecDepth 8000 in
/-- C6 counterexample: a drain over ten queued entries whose sends
alternate failure/success never meets two consecutive failures (the
longest failure run is at most 3, as the claim requires), yet the loop
stops early: entry 7 is parseable and still sits in the unprocessed
remainder, because the break counter of the code accumulates failures
across successes instead of counting consecutive ones. -/
theorem C6_consecutive_reset_counterexample :
    maxFailRun envD.drainPost (parseables lines10) ≤ 3 ∧
    (drainLoop stD envD 0 0 0 [] lines10).remaining ≠ [] ∧
    dataLine 18000 22500 7 ∈ (drainLoop stD envD 0 0 0 [] lines10).remaining ∧
    lineParseable (dataLine 18000 22500 7) = true := by
  refine ⟨?_, ?_, ?_, ?_⟩ <;> with_unfolding_all decide

/-- C6 amended: the drain loop stops early exactly when the cumulative
count of failed sends exceeds 3 — successes do not reset the counter:
whenever lines remain unprocessed the failure count is exactly 4, and a
drain whose attempts would meet at most 3 failures in total processes
every line. -/
theorem C6_cumulative_stop_amended (st : SysState) (env : Env) (lines : List String)
    (hA : st.serverAvailable = true) :
    (fullFailCount env.drainPost 0 lines ≤ 3 →
      (drainLoop st env 0 0 0 [] lines).remaining = []) ∧
    ((drainLoop st env 0 0 0 [] lines).remaining ≠ [] →
      (drainLoop st env 0 0 0 [] lines).failCount = 4) :=
  ⟨fun h => drainLoop_complete st env hA lines 0 0 0 [] (by omega),
   fun h => drainLoop_stop4 st env hA lines 0 0 0 [] (by omega) h⟩

/-- Witness for C6 on a one-entry queue whose send succeeds. -/
theorem C6_cumulative_stop_witness :
    stE.serverAvailable = true ∧
    (drainLoop stE envOK 0 0 0 [] [dataLine 18000 22500 0, "\r"]).remaining = [] :=
  ⟨rfl, (C6_cumulative_stop_amended stE envOK [dataLine 18000 22500 0, "\r"] rfl).1
    (by with_unfolding_all decide)⟩

/- ===== C7 ===== -/

/-- C7: the all-or-nothing queue-clear policy. With reachability and
storage present and the queue file open: when every POST succeeds and
the file holds at least one parseable entry, the drain removes the file
and zeroes the count; when some entry within reach fails, the drain
leaves the state — file and count — exactly as it was. No partial
clearing exists. -/
theorem C7_all_or_nothing_clear (env : Env) (st : SysState) (lines : List String)
    (hA : st.serverAvailable = true) (hS : st.spiffsAvailable = true)
    (hF : st.fileLines = some lines) :
    ((∀ j, 0 < env.drainPost j) → 0 < parseables lines →
      (sendStoredData env st).state.fileLines = none ∧
      (sendStoredData env st).state.storedDetections = 0) ∧
    ((∃ j, j < parseables lines ∧ env.drainPost j ≤ 0) →
      (sendStoredData env st).state = st) := by
  constructor
  · intro hall hpos
    obtain ⟨h1, h2, _⟩ := drainLoop_allSuccess st env hA hall lines 0 0 0 []
    simp [sendStoredData, hA, hS, hF, h2,
      show 0 < (drainLoop st env 0 0 0 [] lines).successCount from by omega]
  · intro hex
    have hfail := drainLoop_failure_hits st env hA lines 0 0 0 [] (by simpa using hex)
    simp [sendStoredData, hA, hS, hF,
      show ¬(0 < (drainLoop st env 0 0 0 [] lines).successCount ∧
        (drainLoop st env 0 0 0 [] lines).failCount = 0) from by omega]

/-- Witness for C7 on a one-entry queue whose send succeeds: the file is
removed and the count zeroed. -/
theorem C7_all_or_nothing_witness :
    (sendStoredData envOK stE).state.fileLines = none ∧
    (sendStoredData envOK stE).state.storedDetections = 0 :=
  (C7_all_or_nothing_clear envOK stE [dataLine 18000 22500 0, "\r"] rfl rfl rfl).1
    (fun j => (by decide : (0 : Int) < 201)) (by with_unfolding_all decide)

/- ===== C1 ===== -/

/-- C1: evaluation of the store-then-drain round trip. A detection
(frequency 18000, magnitude 22500) appended at millis() = 1000 is stored
as the line 18000,22500.00,1000; draining it with a successful send at
millis() = 2000 delivers the payload (18000, 22500.00, 2000): frequency
and magnitude survive the round trip, but the delivered timestamp is the
drain-time clock, not the appended 1000 — the source parses the stored
timestamp into timeStr (line 354) and never passes it to
sendSingleDetection, which stamps the payload with millis() (line 409). -/
theorem C1_roundtrip_timestamp_replaced :
    (storeDetectionLocally 1000 18000 22500 stC1).fileLines =
      some ["18000,22500.00,1000", "\r"] ∧
    (sendStoredData envC1 (storeDetectionLocally 1000 18000 22500 stC1)).ok = true ∧
    (sendStoredData envC1 (storeDetectionLocally 1000 18000 22500 stC1)).sent =
      [⟨"18000", "22500.00", "2000"⟩] ∧
    ("2000" : String) ≠ "1000" := by
  refine ⟨?_, ?_, ?_, ?_⟩
  · with_unfolding_all rfl
  · with_unfolding_all rfl
  · with_unfolding_all rfl
  · decide

/- ===== C3 ===== -/

set_option maxRecDepth 8000 in
/-- C3: evaluation of trim on a queue state reached by appending 105
detections. Because each append writes two lines (the CSV line and a
carriage-return line), trim drops only 5 raw lines — the two oldest
entries and the CSV half of the third — so the trimmed file still
contains the CSV line of entry 3 (one of the 5 oldest entries the claim
says are discarded) and differs from the file holding exactly the 100
most recently appended entries; only the count is reset to 100. -/
theorem C3_trim_drops_lines_not_entries :
    (trimDataFile stC3).storedDetections = 100 ∧
    (trimDataFile stC3).fileLines = some (lines105.drop 5) ∧
    dataLine 18000 22500 3 ∈ lines105.drop 5 ∧
    dataLine 18000 22500 3 ∉ linesC3Expected ∧
    lines105.drop 5 ≠ linesC3Expected := by
  refine ⟨?_, ?_, ?_, ?_, ?_⟩
  · with_unfolding_all rfl
  · with_unfolding_all rfl
  · with_unfolding_all decide
  · with_unfolding_all decide
  · with_unfolding_all decide

/- ===== C2 ===== -/

/-- C2 counterexample: deliver called with serverAvailable = false and
the link present, in an environment where the fresh probe succeeds: the
detection POST IS attempted and nothing is appended to the queue (the
file stays empty and the count stays 0), contradicting the claim that
every such call appends to the queue and attempts no outbound request. -/
theorem C2_probe_success_counterexample :
    stC2.serverAvailable = false ∧ envC2.wifiConnected = true ∧
    (sendDetectionToBackend envC2 18000 22500 stC2).postAttempted = true ∧
    (sendDetectionToBackend envC2 18000 22500 stC2).state.fileLines = some [] ∧
    (sendDetectionToBackend envC2 18000 22500 stC2).state.storedDetections = 0 := by
  refine ⟨rfl, rfl, ?_, ?_, ?_⟩
  · with_unfolding_all rfl
  · with_unfolding_all rfl
  · with_unfolding_all rfl

/-- C2 amended: deliver called with serverAvailable = false, the link
present, every reachability probe failing, storage mounted and the queue
strictly below capacity appends the serialized detection (the CSV line
plus the carriage-return line written by println) to the queue file,
increments the stored count by exactly 1 and attempts no detection POST
(the fresh probe does issue reachability GET requests). -/
theorem C2_unreachable_enqueue_amended (env : Env) (st : SysState)
    (frequency magnitude : Rat)
    (hS : st.serverAvailable = false) (hW : env.wifiConnected = true)
    (hP : ∀ i, i < numBackendUrls → env.probe i ≤ 0)
    (hQ : st.spiffsAvailable = true)
    (hC : st.storedDetections + 1 ≤ maxStoredDetections) :
    (sendDetectionToBackend env frequency magnitude st).state.fileLines =
      some ((st.fileLines.getD []) ++ [dataLine frequency magnitude env.now, "\r"]) ∧
    (sendDetectionToBackend env frequency magnitude st).state.storedDetections =
      st.storedDetections + 1 ∧
    (sendDetectionToBackend env frequency magnitude st).postAttempted = false := by
  have hkc : checkServerAvailability env.now env.probe st =
      ⟨false, { st with lastServerCheckTime := env.now, serverAvailable := false }, [0, 1, 2, 3]⟩ := by
    unfold checkServerAvailability
    rw [if_neg (by simp [hS]), probeLoop_allFail env.probe hP]
  have hstore : sendDetectionToBackend env frequency magnitude st =
      ⟨storeDetectionLocally env.now frequency magnitude
        { st with lastServerCheckTime := env.now, serverAvailable := false }, false, none⟩ := by
    unfold sendDetectionToBackend
    rw [if_neg (by simp [hW]), hkc]
    rfl
  rw [hstore]
  unfold storeDetectionLocally
  rw [if_neg (by simp [hQ]),
    if_neg (show ¬ maxStoredDetections < st.storedDetections + 1 from by omega)]
  exact ⟨rfl, rfl, rfl⟩

/-- Witness for C2 at a concrete state (empty mounted queue, server
marked unavailable) and environment (link up, all probes failing). -/
theorem C2_unreachable_enqueue_witness :
    stC2.serverAvailable = false ∧ envC2b.wifiConnected = true ∧
    ((sendDetectionToBackend envC2b 18000 22500 stC2).state.fileLines =
      some ((stC2.fileLines.getD []) ++ [dataLine 18000 22500 envC2b.now, "\r"]) ∧
     (sendDetectionToBackend envC2b 18000 22500 stC2).state.storedDetections =
      stC2.storedDetections + 1 ∧
     (sendDetectionToBackend envC2b 18000 22500 stC2).postAttempted = false) :=
  ⟨rfl, rfl, C2_unreachable_enqueue_amended envC2b stC2 18000 22500 rfl rfl
    (fun i _ => (by decide : (-1 : Int) ≤ 0)) rfl (by decide)⟩
